import Mathlib

/-!
Shallow embedding of the `causal_guessr` repository (puzzle-seed generation,
validation, session diversity, game state machine, observation cache, and the
NBER `.db` parser), with theorems checking the natural-language specification
against the code.

Conventions of the embedding:
* Python strings are Lean `String`s; Python string comparison (`<=` on
  `YYYY-MM-DD` dates) is code-point lexicographic, embedded as `pyStrLe`.
* Python `x or y` on strings is `pyOrStr` (empty string is falsy); on optional
  values the `Option` is matched explicitly.
* Python dicts holding seeds are embedded as the `RawSeed` structure with
  `Option` fields (a missing key is `none`).  JSON numbers are modelled as
  `Int`.  The `acceptableAnswers` JSON value (scalar or list) is `PyAns`.
* External effects (the OpenAI completion, `json.loads`, the FRED HTTP
  search/release endpoints, the random choice from the fallback pool, the LLM
  guess evaluator) are parameters of the embedded functions: each call site
  receives the outcome of the external operation as an argument.
* Exceptions are `Except` with the message strings of the source.
-/

/-- Python truthiness-based `a or b` for strings: `""` is falsy. -/
def pyOrStr (a b : String) : String :=
  if a = "" then b else a

/-- Python `d.get(k) or b` for an optional string field. -/
def pyOrOptStr (a : Option String) (b : String) : String :=
  match a with
  | none => b
  | some s => pyOrStr s b

/-- Code-point lexicographic strict order on character lists (Python `<` on `str`). -/
def pyStrLtL : List Char → List Char → Bool
  | [], [] => false
  | [], _ :: _ => true
  | _ :: _, [] => false
  | a :: as, b :: bs =>
    if a.toNat < b.toNat then true
    else if b.toNat < a.toNat then false
    else pyStrLtL as bs

/-- Python `a <= b` on strings (total code-point lexicographic order). -/
def pyStrLe (a b : String) : Bool :=
  ! pyStrLtL b.toList a.toList

/-- Substring occurrence test on character lists. -/
def containsChars (needle : List Char) : List Char → Bool
  | [] => needle.isEmpty
  | c :: rest => needle.isPrefixOf (c :: rest) || containsChars needle rest

/-- Python `needle in hay` on strings (substring test). -/
def pyContains (needle hay : String) : Bool :=
  containsChars needle.toList hay.toList

/-- Drop surrounding whitespace from a character list. -/
def stripChars (cs : List Char) : List Char :=
  ((cs.dropWhile Char.isWhitespace).reverse.dropWhile Char.isWhitespace).reverse

/-- Python `s.strip()`: trim surrounding whitespace. -/
def pyStrip (s : String) : String :=
  (stripChars s.toList).asString

/-- Python `s.rstrip(cs)`: drop trailing characters belonging to `cs`. -/
def pyRstrip (cs : List Char) (s : String) : String :=
  ((s.toList.reverse.dropWhile (fun c => cs.contains c)).reverse).asString

/-- Python `s.strip(cs)`: drop leading and trailing characters belonging to `cs`. -/
def pyStripChars (cs : List Char) (s : String) : String :=
  (((s.toList.dropWhile (fun c => cs.contains c)).reverse.dropWhile
      (fun c => cs.contains c)).reverse).asString

/-- Python `s.lower()` (ASCII case fold, as used on the ASCII data here). -/
def pyLower (s : String) : String :=
  (s.toList.map Char.toLower).asString

/-- Python `s.upper()`. -/
def pyUpper (s : String) : String :=
  (s.toList.map Char.toUpper).asString

/-! ## Data model -/

/-- One observation of a time series, `{"date": "YYYY-MM-DD", "value": str}`
(values stay strings in the NBER client; normalization happens later). -/
structure Obs where
  date : String
  value : String
deriving DecidableEq, Repr

/-- The JSON value found under `acceptableAnswers`: either a list of strings or
a scalar (scalars are modelled by their string content). -/
inductive PyAns where
  | scalar (s : String)
  | items (xs : List String)
deriving DecidableEq, Repr

/-- Python truthiness of an `acceptableAnswers` JSON value. -/
def PyAns.truthy : PyAns → Bool
  | .scalar s => s ≠ ""
  | .items xs => ! xs.isEmpty

/-- A puzzle seed dict as produced by the LLM / fallback pool.  Missing keys
are `none`.  `release_id` mirrors the snake-case alternative key accepted by
the code. -/
structure RawSeed where
  source : Option String := none
  seriesId : Option String := none
  searchTerm : Option String := none
  searchText : Option String := none
  fredDiscovery : Option String := none
  releaseId : Option Int := none
  release_id : Option Int := none
  geo : Option String := none
  startDate : Option String := none
  endDate : Option String := none
  correctEvent : Option String := none
  acceptableAnswers : Option PyAns := none
  explanation : Option String := none
  hints : Option (List String) := none
  seed_source : Option String := none
deriving DecidableEq, Repr

/-! ## `api/cache.py` -/

/-- Cache key `(source, series_id, start_date, end_date)`. -/
abbrev CacheKey := String × String × String × String

/-- The module-level `_cache` dict, embedded as an association list. -/
structure CacheState where
  store : List (CacheKey × List Obs) := []
deriving DecidableEq, Repr

/-- `_make_key`: build cache key from source and series params. -/
def _make_key (source series_id start_date end_date : String) : CacheKey :=
  (source, series_id, start_date, end_date)

/-- `_get`: return cached value if present, else `None`. -/
def _get (c : CacheState) (key : CacheKey) : Option (List Obs) :=
  (c.store.find? (fun p => p.1 = key)).map (fun p => p.2)

/-- `_set`: store value in cache (dict assignment: replaces any previous binding). -/
def _set (c : CacheState) (key : CacheKey) (value : List Obs) : CacheState :=
  ⟨(key, value) :: c.store.filter (fun p => p.1 ≠ key)⟩

/-- `get_or_fetch`: return observations from cache if present; otherwise call the
fetcher, store, and return.  The third component counts how many times the
fetcher was invoked by this call. -/
def get_or_fetch (c : CacheState) (source series_id start_date end_date : String)
    (fetcher : Unit → List Obs) : List Obs × CacheState × Nat :=
  let key := _make_key source series_id start_date end_date
  match _get c key with
  | some cached => (cached, c, 0)
  | none =>
    let value := fetcher ()
    (value, _set c key value, 1)

/-- `clear`: clear the cache. -/
def CacheState.clear (_ : CacheState) : CacheState := ⟨[]⟩

/-! ## `ui/app.py`: guess normalization and checking -/

/-- `_normalize_guess`: `guess.strip().lower()`. -/
def _normalize_guess (guess : String) : String :=
  pyLower (pyStrip guess)

/-- `_check_guess`: normalized guess membership in the normalized acceptable list. -/
def _check_guess (guess : String) (acceptable : List String) : Bool :=
  (acceptable.map (fun a => pyLower (pyStrip a))).contains (_normalize_guess guess)

/-! ## `ui/app.py`: session diversity -/

/-- `_intervals_overlap`: `start <= a_end and a_start <= end` for some recorded
interval (inclusive overlap, `YYYY-MM-DD` string comparison). -/
def _intervals_overlap (start end_ : String) (intervals : List (String × String)) : Bool :=
  intervals.any (fun p => pyStrLe start p.2 && pyStrLe p.1 end_)

/-- `_metric_key`: canonical key for the y-axis metric
(`fred:seriesId`, `google_trends:searchTerm` normalized, `nber:seriesId`). -/
def _metric_key (seed : RawSeed) : String :=
  let source := pyLower (pyStrip (pyOrOptStr seed.source "fred"))
  if source = "google_trends" then
    "google_trends:" ++ pyLower (pyStrip (pyOrOptStr seed.searchTerm ""))
  else if source = "nber" then
    "nber:" ++ (seed.seriesId.getD "")
  else
    "fred:" ++ (seed.seriesId.getD "")

/-- Diversity decision taken by `_get_valid_seed` (and re-checked by `build_game`):
a candidate seed is rejected when its interval overlaps a recorded interval or
its metric key was already recorded. -/
def diversity_rejects (seed : RawSeed) (intervals : List (String × String))
    (metrics : List String) : Bool :=
  _intervals_overlap (seed.startDate.getD "") (seed.endDate.getD "") intervals
    || metrics.contains (_metric_key seed)

/-! ## `ui/app.py`: FRED indirect discovery resolution -/

/-- One FRED series object as returned by `search_series` / `get_release_series`. -/
structure FredSeries where
  id : Option String := none
  series_id : Option String := none
  observation_start : Option String := none
  observation_end : Option String := none
  popularity : Option Int := none
deriving DecidableEq, Repr

instance : Inhabited FredSeries := ⟨{}⟩

/-- Python `s.get("popularity") or 0` (0 is falsy, so it maps to 0 anyway). -/
def popOr0 (s : FredSeries) : Int :=
  match s.popularity with
  | none => 0
  | some p => p

/-- Python `int(seed.get("releaseId") or seed.get("release_id") or 0)` with JSON
numbers modelled as `Int` (0 is falsy and falls through). -/
def ridOr0 (a b : Option Int) : Int :=
  match a with
  | some x => if x ≠ 0 then x else match b with | some y => y | none => 0
  | none => match b with | some y => y | none => 0

/-- Coverage filter of `_resolve_fred_discovery`:
`(s.observation_start or "") <= end and (s.observation_end or "0000") >= start`. -/
def fredCovers (start end_ : String) (s : FredSeries) : Bool :=
  pyStrLe (pyOrOptStr s.observation_start "") end_
    && pyStrLe start (pyOrOptStr s.observation_end "0000")

/-- Shared tail of `_resolve_fred_discovery`: filter by coverage, stable-sort by
popularity descending (Python `sort(key=lambda s: -(popularity or 0))`), take
the first, and write its id into the seed. -/
def fredPickSeries (seed : RawSeed) (start end_ : String) (series_list : List FredSeries) :
    Except String RawSeed :=
  let valid := series_list.filter (fredCovers start end_)
  match valid with
  | [] =>
    .error ("No FRED series found for discovery covering " ++ start ++ " to " ++ end_)
  | _ :: _ =>
    let sorted := valid.mergeSort (fun a b => popOr0 b ≤ popOr0 a)
    let chosen := sorted.headI
    let sid : Option String :=
      match chosen.id with
      | some s => if s ≠ "" then some s else chosen.series_id
      | none => chosen.series_id
    match sid with
    | some s => if s = "" then .error "FRED series object missing id"
                else .ok { seed with seriesId := some s }
    | none => .error "FRED series object missing id"

/-- `_resolve_fred_discovery`: resolve a `fredDiscovery` seed ("search" or
"release") to a concrete `seriesId`.  The upstream `search_series` and
`get_release_series` HTTP calls are supplied as functions. -/
def _resolve_fred_discovery (seed : RawSeed)
    (search_series : String → List FredSeries)
    (get_release_series : Int → List FredSeries) : Except String RawSeed :=
  let discovery := pyLower (pyStrip (pyOrOptStr seed.fredDiscovery ""))
  if discovery = "" then .ok seed
  else
    let start := pyOrOptStr seed.startDate ""
    let end_ := pyOrOptStr seed.endDate ""
    if start = "" || end_ = "" then
      .error "FRED discovery seed missing startDate or endDate"
    else if discovery = "search" then
      let search_text := pyStrip (pyOrOptStr seed.searchText "")
      if search_text = "" then .error "FRED discovery=search missing searchText"
      else fredPickSeries seed start end_ (search_series search_text)
    else if discovery = "release" then
      let release_id := ridOr0 seed.releaseId seed.release_id
      if release_id ≤ 0 then .error "FRED discovery=release missing releaseId"
      else fredPickSeries seed start end_ (get_release_series release_id)
    else .ok seed

/-! ## `ui/app.py`: game state machine -/

/-- The `_current_game` dict set by a successful `build_game`. -/
structure Game where
  id : String
  title : String
  imageBase64 : String
  correctEvent : String
  acceptableAnswers : List String
  explanation : String
  seed_source : String
  hints : List String
  attempts_left : Int
deriving DecidableEq, Repr

/-- Response dict of `POST /api/game/guess`.  Keys absent from the Python dict
are `none` (the exhausted branch returns an explicit `"hint": None`, also
`none` here). -/
structure GuessResponse where
  correct : Bool
  attempts_left : Int
  hint : Option String
  correctEvent : Option String
  explanation : Option String
deriving DecidableEq, Repr

/-- Hint construction in `build_game`:
`hints = list(seed.get("hints") or [])[:4]` then pad with
`seed.get("correctEvent") or "The correct event."` while shorter than 4. -/
def buildGameHints (seedHints : Option (List String)) (correctEvent : Option String) :
    List String :=
  let hints := (seedHints.getD []).take 4
  hints ++ List.replicate (4 - hints.length) (pyOrOptStr correctEvent "The correct event.")

/-- Game installed into the `_current_game` slot by a successful `build_game`
(fields taken from the validated seed and built metadata). -/
def mk_current_game (pid title imageB64 : String) (seed : RawSeed) : Game :=
  { id := pid
    title := title
    imageBase64 := imageB64
    correctEvent := seed.correctEvent.getD ""
    acceptableAnswers :=
      match seed.acceptableAnswers with
      | some (.items xs) => xs
      | _ => []
    explanation := pyOrOptStr seed.explanation ""
    seed_source := pyOrOptStr seed.seed_source "unknown"
    hints := buildGameHints seed.hints seed.correctEvent
    attempts_left := 4 }

/-- Semantics of the guarded `evaluate_guess_with_llm` call inside
`submit_guess`: an exception raised by the evaluator or its import is caught
and mapped to "not correct". -/
def evalOutcome : Except String Bool → Bool
  | .ok b => b
  | .error _ => false

/-- `submit_guess` (`POST /api/game/guess`).  `llmEval` is the outcome of the
external `evaluate_guess_with_llm` call.  The second component of the result
is the game slot after the request. -/
def submit_guess (game? : Option Game) (guess : String) (llmEval : Except String Bool) :
    Except String (GuessResponse × Option Game) :=
  match game? with
  | none => .error "No active game. Call GET /api/game/new first."
  | some g =>
    let attempts_left := max 0 g.attempts_left
    if attempts_left ≤ 0 then
      .ok ({ correct := false
             attempts_left := 0
             hint := none
             correctEvent := some (pyOrStr g.correctEvent "")
             explanation := some (pyOrStr g.explanation "") }, some g)
    else
      let acceptable :=
        g.acceptableAnswers ++ (if g.correctEvent ≠ "" then [g.correctEvent] else [])
      let correct := _check_guess guess acceptable
      let correct := if correct then true else evalOutcome llmEval
      if correct then
        .ok ({ correct := true
               attempts_left := attempts_left
               hint := none
               correctEvent := none
               explanation := some (pyOrStr g.explanation "") }, some g)
      else
        let newAttempts := max 0 (attempts_left - 1)
        let g' := { g with attempts_left := newAttempts }
        let hints := g'.hints
        let hint_index : Int := 4 - newAttempts - 1
        let hint :=
          if 0 ≤ hint_index ∧ hint_index < (hints.length : Int) then
            hints.get? hint_index.toNat
          else none
        .ok ({ correct := false
               attempts_left := newAttempts
               hint := hint
               correctEvent := if newAttempts ≤ 0 then some (pyOrStr g'.correctEvent "") else none
               explanation := if newAttempts ≤ 0 then some (pyOrStr g'.explanation "") else none },
             some g')

/-! ## `api/seed_generator.py` -/

/-- Synthesized hint sequence of `_ensure_hints` (generic time-period prompt,
explanation or generic fallback, generic short-name prompt, the correct event
or a generic stand-in). -/
def synthHints (seed : RawSeed) : List String :=
  let expl := pyOrOptStr seed.explanation ""
  let event := pyOrOptStr seed.correctEvent "the correct event"
  [ "Think about major economic or global events in this date range."
  , pyOrStr expl "The trend is linked to a well-known historical event."
  , "The answer is often abbreviated or has a common short name."
  , event ]

/-- `_ensure_hints`: keep the first 4 hints when 4 or more are present,
otherwise install the synthesized 4-hint sequence. -/
def _ensure_hints (seed : RawSeed) : RawSeed :=
  match seed.hints with
  | some hs =>
    if hs.length ≥ 4 then { seed with hints := some (hs.take 4) }
    else { seed with hints := some (synthHints seed) }
  | none => { seed with hints := some (synthHints seed) }

/-- First missing key of a required-key presence list (the validation loop
raises on the first absent key, naming it). -/
def firstMissing : List (String × Bool) → Option String
  | [] => none
  | (k, present) :: rest => if present then firstMissing rest else some k

/-- Python `seed.get("releaseId") or seed.get("release_id")` (`0` is falsy). -/
def ridOpt (a b : Option Int) : Option Int :=
  match a with
  | some x => if x ≠ 0 then some x else b
  | none => b

/-- Wrap of a scalar `acceptableAnswers` into a one-element list inside the LLM
validation (`if not isinstance(..., list): ... = [ ... ]`, no truthiness test). -/
def llmWrapAnswers (seed : RawSeed) : RawSeed :=
  match seed.acceptableAnswers with
  | some (.items _) => seed
  | some (.scalar s) => { seed with acceptableAnswers := some (.items [s]) }
  | none => seed

/-- Final repair steps shared by all sources after validation: wrap scalar
answers, ensure 4 hints, tag `seed_source = "llm"`. -/
def finishSeed (seed : RawSeed) : RawSeed :=
  { _ensure_hints (llmWrapAnswers seed) with seed_source := some "llm" }

/-- Validation/repair of a parsed LLM seed (`generate_puzzle_seed` lines after
`json.loads`): source defaulting, required-field checks, discovery-descriptor
checks for FRED, answer wrapping and hint synthesis.  A key bound to JSON
`null` is modelled like an absent key. -/
def validateLLMSeed (seed : RawSeed) : Except String RawSeed :=
  let source := pyLower (pyStrip (pyOrOptStr seed.source "fred"))
  if source = "google_trends" then
    match firstMissing
        [ ("searchTerm", seed.searchTerm.isSome), ("startDate", seed.startDate.isSome)
        , ("endDate", seed.endDate.isSome), ("correctEvent", seed.correctEvent.isSome)
        , ("acceptableAnswers", seed.acceptableAnswers.isSome)
        , ("explanation", seed.explanation.isSome) ] with
    | some k => .error ("LLM seed missing key: " ++ k)
    | none => .ok (finishSeed seed)
  else if source = "nber" then
    match firstMissing
        [ ("seriesId", seed.seriesId.isSome), ("startDate", seed.startDate.isSome)
        , ("endDate", seed.endDate.isSome), ("correctEvent", seed.correctEvent.isSome)
        , ("acceptableAnswers", seed.acceptableAnswers.isSome)
        , ("explanation", seed.explanation.isSome) ] with
    | some k => .error ("LLM seed missing key: " ++ k)
    | none => .ok (finishSeed seed)
  else
    let seed := { seed with source := some "fred" }
    match firstMissing
        [ ("startDate", seed.startDate.isSome), ("endDate", seed.endDate.isSome)
        , ("correctEvent", seed.correctEvent.isSome)
        , ("acceptableAnswers", seed.acceptableAnswers.isSome)
        , ("explanation", seed.explanation.isSome) ] with
    | some k => .error ("LLM seed missing key: " ++ k)
    | none =>
      let discovery := pyLower (pyStrip (pyOrOptStr seed.fredDiscovery ""))
      if discovery ≠ "" then
        if discovery = "search" && pyStrip (pyOrOptStr seed.searchText "") = "" then
          .error "LLM FRED seed fredDiscovery=search missing searchText"
        else if discovery = "release" then
          match ridOpt seed.releaseId seed.release_id with
          | none => .error "LLM FRED seed fredDiscovery=release missing or invalid releaseId"
          | some rid =>
            if rid ≤ 0 then
              .error "LLM FRED seed fredDiscovery=release missing or invalid releaseId"
            else .ok (finishSeed seed)
        else .ok (finishSeed seed)
      else if pyStrip (pyOrOptStr seed.seriesId "") = "" then
        .error "LLM FRED seed missing seriesId (or fredDiscovery + searchText/releaseId)"
      else .ok (finishSeed seed)

/-- Scalar-answer wrap of `_random_seed_from_file`
(`[x] if seed.get("acceptableAnswers") else []`, with truthiness). -/
def fallbackWrapAnswers (seed : RawSeed) : RawSeed :=
  match seed.acceptableAnswers with
  | some (.items _) => seed
  | some (.scalar s) =>
    { seed with acceptableAnswers := some (if s ≠ "" then .items [s] else .items []) }
  | none => { seed with acceptableAnswers := some (.items []) }

/-- Repair applied to the drawn pool entry in `_random_seed_from_file`: wrap
scalar answers, tag `seed_source = "fallback"`, ensure 4 hints. -/
def fallbackRepair (seed : RawSeed) : RawSeed :=
  _ensure_hints { fallbackWrapAnswers seed with seed_source := some "fallback" }

/-- `_random_seed_from_file`: draw a pool entry (the uniform `random.choice` is
modelled by an index `choice`, reduced mod the pool size) and repair it.
`pool = none` models a missing `puzzle_seeds.json` file. -/
def _random_seed_from_file (pool : Option (List RawSeed)) (choice : Nat) :
    Except String RawSeed :=
  match pool with
  | none => .error "puzzle_seeds.json not found"
  | some seeds =>
    match seeds with
    | [] => .error "puzzle_seeds.json is empty"
    | s0 :: rest =>
      .ok (fallbackRepair ((s0 :: rest).getD (choice % (s0 :: rest).length) s0))

/-- Split a character list at the first occurrence of `needle`, returning the
part before it and the part after it. -/
def splitOnFirst (needle : List Char) : List Char → Option (List Char × List Char)
  | [] => if needle.isEmpty then some ([], []) else none
  | c :: rest =>
    if needle.isPrefixOf (c :: rest) then some ([], (c :: rest).drop needle.length)
    else (splitOnFirst needle rest).map (fun p => (c :: p.1, p.2))

/-- Markdown code-fence stripping of the model response:
the first fenced block (optional `json` tag, then lazily up to the closing
fence) is captured and stripped when the text contains a fence; the capture
replaces the text, otherwise the text is kept unchanged. -/
def stripCodeFence (text : String) : String :=
  if pyContains "```" text then
    match splitOnFirst "```".toList text.toList with
    | some (_, after) =>
      let after1 := if "json".toList.isPrefixOf after then after.drop 4 else after
      let after2 := after1.dropWhile Char.isWhitespace
      match splitOnFirst "```".toList after2 with
      | some (body, _) => pyStrip body.asString
      | none => text
    | none => text
  else text

/-- Body of the `try` block of `generate_puzzle_seed` after the credential
checks: model completion (external), fence strip, JSON parse (external),
validation/repair.  Any step may raise; the message string propagates. -/
def llm_attempt (completion : Except String String)
    (parseJson : String → Except String RawSeed) : Except String RawSeed := do
  let content ← completion
  let text := pyStrip content
  let text := stripCodeFence text
  let seed ← parseJson text
  validateLLMSeed seed

/-- Quota classification of the exception handler:
`"429" in err_str or "quota" in err_str or "insufficient_quota" in err_str`. -/
def isQuotaError (err_str : String) : Bool :=
  pyContains "429" err_str || pyContains "quota" err_str
    || pyContains "insufficient_quota" err_str

/-- Auth classification of the exception handler: `"401" in err_str or "403" in err_str`. -/
def isAuthError (err_str : String) : Bool :=
  pyContains "401" err_str || pyContains "403" err_str

/-- `generate_puzzle_seed`: try the LLM, fall back to the static pool on
failure, except that auth (401/403) failures propagate.  `openaiImportOk`
models the `from openai import OpenAI` import, `rawKey` the
`OPENAI_API_KEY` environment value, `completion` the chat-completion call
outcome, `parseJson` the `json.loads` behaviour, `pool`/`choice` the fallback
pool file and the random draw. -/
def generate_puzzle_seed (openaiImportOk : Bool) (rawKey : Option String)
    (completion : Except String String) (parseJson : String → Except String RawSeed)
    (pool : Option (List RawSeed)) (choice : Nat) : Except String RawSeed :=
  if ! openaiImportOk then _random_seed_from_file pool choice
  else
    let api_key :=
      match rawKey with
      | none => ""
      | some r => pyStripChars ['\''] (pyStripChars ['"'] (pyStrip r))
    if api_key = "" then _random_seed_from_file pool choice
    else
      match llm_attempt completion parseJson with
      | .ok seed => .ok seed
      | .error e =>
        let err_str := pyLower e
        if isQuotaError err_str then _random_seed_from_file pool choice
        else if isAuthError err_str then .error e
        else _random_seed_from_file pool choice

/-! ## `api/nber_client.py`: the `.db` text format parser -/

/-- Decimal digits to a natural number. -/
def digitsToNat (ds : List Char) : Nat :=
  ds.foldl (fun acc c => acc * 10 + (c.toNat - 48)) 0

/-- Python `int(s)` on an already-stripped character list: optional sign, then
at least one digit (underscore grouping and non-decimal bases are not used by
the data and are elided). -/
def pyIntChars : List Char → Option Int
  | '+' :: rest =>
    if rest ≠ [] ∧ rest.all Char.isDigit then some (digitsToNat rest : Int) else none
  | '-' :: rest =>
    if rest ≠ [] ∧ rest.all Char.isDigit then some (-(digitsToNat rest : Int)) else none
  | cs => if cs ≠ [] ∧ cs.all Char.isDigit then some (digitsToNat cs : Int) else none

/-- Python `int(s)`. -/
def pyInt (s : String) : Option Int :=
  pyIntChars (pyStrip s).toList

/-- Exact value of a parsed decimal float literal: `num / den` with `den` a
positive power of ten.  The `.db` headers only carry such literals, so this
represents the Python floats of the parser exactly. -/
structure PyFloat where
  num : Int
  den : Nat
deriving DecidableEq, Repr

/-- Unsigned decimal literal `digits[.digits]` / `.digits` / `digits.` as an
exact `PyFloat` (exponents, `inf`, `nan` are not used by the data and elided). -/
def pyFloatAux (cs : List Char) : Option PyFloat :=
  let intPart := cs.takeWhile Char.isDigit
  let rest := cs.dropWhile Char.isDigit
  match rest with
  | [] => if intPart = [] then none else some ⟨(digitsToNat intPart : Int), 1⟩
  | '.' :: frac =>
    if frac.all Char.isDigit ∧ (intPart ≠ [] ∨ frac ≠ []) then
      some ⟨(digitsToNat intPart : Int) * (10 : Int) ^ frac.length
              + (digitsToNat frac : Int), 10 ^ frac.length⟩
    else none
  | _ => none

/-- Python `float(s)` (on the decimal literals occurring in `.db` files). -/
def pyFloat (s : String) : Option PyFloat :=
  match (pyStrip s).toList with
  | '+' :: rest => pyFloatAux rest
  | '-' :: rest => (pyFloatAux rest).map (fun x => ⟨-x.num, x.den⟩)
  | cs => pyFloatAux cs

/-- Python `int(x)` on a float: truncation toward zero. -/
def pyTrunc (x : PyFloat) : Int :=
  if 0 ≤ x.num then ((x.num.toNat / x.den : Nat) : Int)
  else -(((-x.num).toNat / x.den : Nat) : Int)

/-- Python `x % 1` on a float (result in `[0,1)`: the remainder takes the sign
of the divisor). -/
def pyMod1 (x : PyFloat) : PyFloat :=
  ⟨x.num.emod (x.den : Int), x.den⟩

/-- Multiplication of a parsed float by an integer (`(... % 1) * abs(freq)`). -/
def pyMulInt (x : PyFloat) (k : Int) : PyFloat :=
  ⟨x.num * k, x.den⟩

/-- Python `round(x)`: nearest integer, ties to even. -/
def pyRound (x : PyFloat) : Int :=
  let f := x.num.ediv (x.den : Int)
  let r := x.num.emod (x.den : Int)
  if 2 * r < (x.den : Int) then f
  else if (x.den : Int) < 2 * r then f + 1
  else if f % 2 = 0 then f else f + 1

/-- Python `x or d` on ints (`0` is falsy). -/
def pyOrIntDef (x d : Int) : Int :=
  if x = 0 then d else x

/-- Python `f"{n:02d}"` for the month numbers used here. -/
def pad2 (n : Int) : String :=
  let s := toString n
  if s.length < 2 then "0" ++ s else s

/-- Split a character list into lines at `'\n'` (the `.db` payloads are
`\n`-delimited; other line boundaries handled by Python `splitlines` do not
occur, and a trailing empty piece is removed downstream by the empty-line
filter either way). -/
def splitLinesChars : List Char → List (List Char)
  | [] => [[]]
  | c :: rest =>
    if c = '\n' then [] :: splitLinesChars rest
    else
      match splitLinesChars rest with
      | [] => [[c]]
      | l :: ls => (c :: l) :: ls

/-- Python `s.splitlines()` for `\n`-delimited text. -/
def pySplitlines (s : String) : List String :=
  (splitLinesChars s.toList).map List.asString

/-- Frequency-marker scan of `_parse_db_content`: walk the lines; a `-1`/`-4`/
`-12` line fixes the frequency and the header position (provided at least two
further lines exist); a quoted comment line is skipped; any other line that
parses as an int aborts the scan with no frequency. -/
def findFreqGo (lines : List String) : List String → Nat → Option (Int × Nat)
  | [], _ => none
  | ln :: rest, i =>
    if ln = "-1" ∨ ln = "-4" ∨ ln = "-12" then
      let freq : Int := if ln = "-1" then -1 else if ln = "-4" then -4 else -12
      if i + 2 < lines.length then some (freq, i + 1) else none
    else if ['"'].isPrefixOf ln.toList then findFreqGo lines rest (i + 1)
    else
      match pyInt ln with
      | some _ => none
      | none => findFreqGo lines rest (i + 1)

/-- Frequency and start-line search over the cleaned line list. -/
def findFreqStart (lines : List String) : Option (Int × Nat) :=
  findFreqGo lines lines 0

/-- Header bounds of `_parse_db_content`: start/end year and subperiod from the
two lines following the frequency marker. -/
def parseBounds (lines : List String) (start_line : Nat) (freq : Int) :
    Option (Int × Int × Int × Int) :=
  let l1 := lines.getD start_line ""
  let l2 := lines.getD (start_line + 1) ""
  let start_str := pyRstrip ['.'] l1
  let end_str := pyRstrip ['.'] l2
  match pyFloat start_str, pyFloat end_str with
  | some sf, some ef =>
    let start_y := pyTrunc sf
    let end_y := pyTrunc ef
    let fa : Int := |freq|
    let end_sub0 : Int := if fa = 4 then 4 else if fa = 12 then 12 else 1
    let start_sub : Int :=
      if pyContains "." l1 then
        max 1 (min (pyOrIntDef (pyRound (pyMulInt (pyMod1 sf) fa)) 1) fa)
      else 1
    let end_sub : Int :=
      if pyContains "." l2 ∧ (fa = 4 ∨ fa = 12) then
        max 1 (min (pyOrIntDef (pyRound (pyMulInt (pyMod1 ef) fa)) fa) fa)
      else end_sub0
    some (start_y, end_y, start_sub, end_sub)
  | _, _ => none

/-- Stop test applied after each appended observation (`y`/`sub` already
updated): past the end year, or at the end year past the end subperiod for
quarterly/monthly data. -/
def nberStop (freq endY endSub y sub : Int) : Bool :=
  decide (y > endY)
    || (decide (y = endY)
        && ((decide (freq = -12) && decide (sub > endSub))
            || (decide (freq = -4) && decide (sub > endSub))))

/-- Observation-generation loop of `_parse_db_content`: one value line per
period, `NA`/empty marked as missing, dates synthesized from year and
subperiod. -/
def genObs (freq endY endSub : Int) : List String → Int → Int → List Obs
  | [], _, _ => []
  | v :: rest, y, sub =>
    let vs := pyStrip v
    let is_na := pyUpper vs = "NA" || vs = ""
    let value := if is_na then "NA" else vs
    if freq = -1 then
      let o : Obs := ⟨toString y ++ "-01-01", value⟩
      let y1 := y + 1
      if nberStop freq endY endSub y1 sub then [o]
      else o :: genObs freq endY endSub rest y1 sub
    else if freq = -4 then
      let month := (sub - 1) * 3 + 1
      let o : Obs := ⟨toString y ++ "-" ++ pad2 month ++ "-01", value⟩
      let sub1 := sub + 1
      let y1 := if sub1 > 4 then y + 1 else y
      let sub2 := if sub1 > 4 then 1 else sub1
      if nberStop freq endY endSub y1 sub2 then [o]
      else o :: genObs freq endY endSub rest y1 sub2
    else
      let o : Obs := ⟨toString y ++ "-" ++ pad2 sub ++ "-01", value⟩
      let sub1 := sub + 1
      let y1 := if sub1 > 12 then y + 1 else y
      let sub2 := if sub1 > 12 then 1 else sub1
      if nberStop freq endY endSub y1 sub2 then [o]
      else o :: genObs freq endY endSub rest y1 sub2

/-- `_parse_db_content`: parse the NBER `.db` format (comment lines, frequency
marker, start/end year lines, one value per line, `NA` = missing). -/
def _parse_db_content (content : String) : List Obs :=
  let lines := ((pySplitlines (pyStrip content)).map pyStrip).filter (fun l => l ≠ "")
  match findFreqStart lines with
  | none => []
  | some (freq, start_line) =>
    match parseBounds lines start_line freq with
    | none => []
    | some (start_y, end_y, start_sub, end_sub) =>
      let value_lines := lines.drop (start_line + 2)
      genObs freq end_y end_sub value_lines start_y start_sub

/-! ## Concrete inputs used by the scenario claims -/

/-- NBER `.db` record with an annual 1862–1930 header, 63 numeric value lines
and 6 trailing `NA` missing-marker lines. -/
def nberTestContent : String :=
  "\" Index of crop production\n-1\n1862.\n1930.\n100\n101\n102\n103\n104\n105\n106\n107\n108\n109\n110\n111\n112\n113\n114\n115\n116\n117\n118\n119\n120\n121\n122\n123\n124\n125\n126\n127\n128\n129\n130\n131\n132\n133\n134\n135\n136\n137\n138\n139\n140\n141\n142\n143\n144\n145\n146\n147\n148\n149\n150\n151\n152\n153\n154\n155\n156\n157\n158\n159\n160\n161\n162\nNA\nNA\nNA\nNA\nNA\nNA"

/-! ## Theorems -/

/-- Writing a key and reading it back hits the stored value. -/
theorem get_after_set (c : CacheState) (k : CacheKey) (v : List Obs) :
    _get (_set c k v) k = some v := by
  simp [_get, _set, List.find?]

/-- Claim C6: for every cache key, calling `get_or_fetch` twice with the same
key invokes the supplied fetch functions at most once in total, and the second
call returns the value stored by the first call (with zero fetches), including
when the first fetch returned an empty observation list. -/
theorem get_or_fetch_idempotent (c : CacheState) (src sid s e : String)
    (f1 f2 : Unit → List Obs) :
    (get_or_fetch ((get_or_fetch c src sid s e f1).2.1) src sid s e f2).1
        = (get_or_fetch c src sid s e f1).1
    ∧ (get_or_fetch ((get_or_fetch c src sid s e f1).2.1) src sid s e f2).2.2 = 0
    ∧ (get_or_fetch c src sid s e f1).2.2
        + (get_or_fetch ((get_or_fetch c src sid s e f1).2.1) src sid s e f2).2.2 ≤ 1 := by
  cases h : _get c (_make_key src sid s e) with
  | some v => simp [get_or_fetch, h]
  | none => simp [get_or_fetch, h, get_after_set]

set_option maxRecDepth 8000 in
/-- Claim C7: the NBER parser, fed an annual 1862–1930 record whose final 6
values are missing markers, yields exactly 69 observations, the first dated
1862-01-01, the last dated 1930-01-01, and the last value flagged missing. -/
theorem nber_parse_annual_na_tail :
    (_parse_db_content nberTestContent).length = 69
    ∧ ((_parse_db_content nberTestContent).head?).map Obs.date = some "1862-01-01"
    ∧ ((_parse_db_content nberTestContent).getLast?).map Obs.date = some "1930-01-01"
    ∧ ((_parse_db_content nberTestContent).getLast?).map Obs.value = some "NA" := by
  refine ⟨by decide, by decide, by decide, by decide⟩

/-- The guarded hint lookup collapses to `List.get?` once the index is
known non-negative. -/
theorem hintSel (hints : List String) (idx : Int) (h : 0 ≤ idx) :
    (if 0 ≤ idx ∧ idx < (hints.length : Int) then hints.get? idx.toNat else none)
      = hints.get? idx.toNat := by
  by_cases hc : idx < (hints.length : Int)
  · rw [if_pos ⟨h, hc⟩]
  · rw [if_neg (by tauto)]
    symm
    rw [List.get?_eq_none]
    omega

/-- Evaluation of `submit_guess` on a wrong guess against an active game:
single decrement, hint drawn at index `4 - new-attempts - 1`, reveal fields
added once attempts hit zero. -/
theorem submit_guess_wrong_run (g : Game) (guess : String) (ev : Except String Bool)
    (h1 : 1 ≤ g.attempts_left) (h4 : g.attempts_left ≤ 4)
    (hwrong : _check_guess guess
        (g.acceptableAnswers ++ (if g.correctEvent ≠ "" then [g.correctEvent] else [])) = false)
    (hev : evalOutcome ev = false) :
    submit_guess (some g) guess ev =
      .ok ({ correct := false
           , attempts_left := g.attempts_left - 1
           , hint := g.hints.get? (4 - g.attempts_left).toNat
           , correctEvent :=
               if g.attempts_left - 1 ≤ 0 then some (pyOrStr g.correctEvent "") else none
           , explanation :=
               if g.attempts_left - 1 ≤ 0 then some (pyOrStr g.explanation "") else none }
          , some { g with attempts_left := g.attempts_left - 1 }) := by
  have hmax : max 0 g.attempts_left = g.attempts_left := by omega
  have hmax2 : max 0 (g.attempts_left - 1) = g.attempts_left - 1 := by omega
  have hidx : (4 : Int) - (g.attempts_left - 1) - 1 = 4 - g.attempts_left := by ring
  simp only [submit_guess, hmax, hwrong, hev, hmax2, hidx]
  rw [if_neg (show ¬ (g.attempts_left ≤ 0) by omega)]
  simp only [Bool.false_eq_true, if_false]
  rw [hintSel _ _ (by omega)]

/-- Claim C2: for every active game with attempts-remaining in [1,4], an
incorrect guess decrements attempts-remaining by exactly one (never below 0)
and returns the hint at index `4 - attempts-remaining - 1` of the hint
sequence (via `List.get?`, so `none` exactly when out of range); the index
equals 3 exactly on the guess that exhausts the attempts, i.e. hint index 3 is
never returned before the 4th consecutive wrong guess. -/
theorem submit_guess_wrong_decrements (g : Game) (guess : String) (ev : Except String Bool)
    (h1 : 1 ≤ g.attempts_left) (h4 : g.attempts_left ≤ 4)
    (hwrong : _check_guess guess
        (g.acceptableAnswers ++ (if g.correctEvent ≠ "" then [g.correctEvent] else [])) = false)
    (hev : evalOutcome ev = false) :
    ∃ r : GuessResponse, ∃ g' : Game,
      submit_guess (some g) guess ev = .ok (r, some g')
      ∧ g'.attempts_left = g.attempts_left - 1
      ∧ r.attempts_left = g.attempts_left - 1
      ∧ 0 ≤ r.attempts_left
      ∧ r.hint = g.hints.get? (4 - g.attempts_left).toNat
      ∧ ((4 - g.attempts_left).toNat = 3 ↔ g.attempts_left = 1) := by
  refine ⟨_, _, submit_guess_wrong_run g guess ev h1 h4 hwrong hev, rfl, rfl,
    show (0 : Int) ≤ g.attempts_left - 1 by omega, rfl, by omega⟩

def c2Game : Game :=
  { id := "g2", title := "t", imageBase64 := "img", correctEvent := "COVID-19 pandemic"
  , acceptableAnswers := ["covid"], explanation := "expl", seed_source := "llm"
  , hints := ["h1", "h2", "h3", "h4"], attempts_left := 3 }

/-- Witness for C2 at a concrete game with 3 attempts left. -/
theorem submit_guess_wrong_decrements_witness :
    (1 ≤ c2Game.attempts_left ∧ c2Game.attempts_left ≤ 4
      ∧ _check_guess "wrong guess" (c2Game.acceptableAnswers
          ++ (if c2Game.correctEvent ≠ "" then [c2Game.correctEvent] else [])) = false
      ∧ evalOutcome (.error "no key") = false)
    ∧ (∃ r : GuessResponse, ∃ g' : Game,
        submit_guess (some c2Game) "wrong guess" (.error "no key") = .ok (r, some g')
        ∧ g'.attempts_left = c2Game.attempts_left - 1
        ∧ r.attempts_left = c2Game.attempts_left - 1
        ∧ 0 ≤ r.attempts_left
        ∧ r.hint = c2Game.hints.get? (4 - c2Game.attempts_left).toNat
        ∧ ((4 - c2Game.attempts_left).toNat = 3 ↔ c2Game.attempts_left = 1)) :=
  ⟨⟨by decide, by decide, by decide, by decide⟩,
    submit_guess_wrong_decrements c2Game "wrong guess" (.error "no key")
      (by decide) (by decide) (by decide) (by decide)⟩

/-- Claim C9: a guess with no active game fails with the "no active game"
error; a guess against an exhausted game (attempts-remaining 0) returns the
correct event and explanation with attempts-remaining still 0 and leaves the
game slot unchanged, regardless of the guess text. -/
theorem submit_guess_empty_and_exhausted (guess : String) (ev : Except String Bool)
    (g : Game) (hg : g.attempts_left ≤ 0) :
    submit_guess none guess ev = .error "No active game. Call GET /api/game/new first."
    ∧ submit_guess (some g) guess ev =
        .ok ({ correct := false, attempts_left := 0, hint := none
             , correctEvent := some (pyOrStr g.correctEvent "")
             , explanation := some (pyOrStr g.explanation "") }, some g) := by
  refine ⟨rfl, ?_⟩
  have h : max 0 g.attempts_left = 0 := by omega
  simp [submit_guess, h]

def c9Game : Game :=
  { id := "g9", title := "t", imageBase64 := "img", correctEvent := "COVID-19 pandemic"
  , acceptableAnswers := ["covid"], explanation := "expl", seed_source := "llm"
  , hints := ["h1", "h2", "h3", "h4"], attempts_left := 0 }

/-- Witness for C9 at a concrete exhausted game. -/
theorem submit_guess_empty_and_exhausted_witness :
    c9Game.attempts_left ≤ 0
    ∧ (submit_guess none "anything" (.ok false)
          = .error "No active game. Call GET /api/game/new first."
       ∧ submit_guess (some c9Game) "anything" (.ok false)
          = .ok ({ correct := false, attempts_left := 0, hint := none
                 , correctEvent := some (pyOrStr c9Game.correctEvent "")
                 , explanation := some (pyOrStr c9Game.explanation "") }, some c9Game)) :=
  ⟨by decide, submit_guess_empty_and_exhausted "anything" (.ok false) c9Game (by decide)⟩

/-- Claim C3 (amended): for every active game and every guess that, after
trimming and case-folding, equals some accepted answer or the non-empty
correct-event string (the code skips an empty correct-event), `submit_guess`
returns correct=true, leaves the game (and attempts-remaining) unchanged, and
issues no hint, whatever the semantic evaluator would say. -/
theorem submit_guess_exact_match_correct (g : Game) (guess : String) (ev : Except String Bool)
    (hactive : 1 ≤ g.attempts_left)
    (hmatch : ∃ a, (a ∈ g.acceptableAnswers ∨ (a = g.correctEvent ∧ g.correctEvent ≠ ""))
        ∧ _normalize_guess guess = pyLower (pyStrip a)) :
    ∃ r : GuessResponse,
      submit_guess (some g) guess ev = .ok (r, some g)
      ∧ r.correct = true ∧ r.attempts_left = g.attempts_left ∧ r.hint = none := by
  obtain ⟨a, ha, hna⟩ := hmatch
  have hmem : a ∈ g.acceptableAnswers
      ++ (if g.correctEvent ≠ "" then [g.correctEvent] else []) := by
    rcases ha with h | ⟨rfl, hne⟩
    · exact List.mem_append_left _ h
    · rw [if_pos hne]
      exact List.mem_append_right _ (List.mem_singleton.mpr rfl)
  have hcheck : _check_guess guess
      (g.acceptableAnswers ++ (if g.correctEvent ≠ "" then [g.correctEvent] else [])) = true :=
    List.elem_eq_true_of_mem (hna ▸ List.mem_map_of_mem _ hmem)
  have hmax : max 0 g.attempts_left = g.attempts_left := by omega
  have hnot : ¬ (g.attempts_left ≤ 0) := by omega
  have hrun : submit_guess (some g) guess ev =
      .ok ({ correct := true, attempts_left := g.attempts_left, hint := none
           , correctEvent := none, explanation := some (pyOrStr g.explanation "") }, some g) := by
    simp only [submit_guess, hmax, hcheck]
    rw [if_neg hnot]
    simp only [if_true]
  exact ⟨_, hrun, rfl, rfl, rfl⟩

def c3Game : Game :=
  { id := "g3", title := "t", imageBase64 := "img", correctEvent := "COVID-19 pandemic"
  , acceptableAnswers := ["covid"], explanation := "expl", seed_source := "llm"
  , hints := ["h1", "h2", "h3", "h4"], attempts_left := 4 }

/-- Witness for C3 at a concrete game and a case/whitespace-varied guess. -/
theorem submit_guess_exact_match_correct_witness :
    (1 ≤ c3Game.attempts_left
      ∧ ∃ a, (a ∈ c3Game.acceptableAnswers
              ∨ (a = c3Game.correctEvent ∧ c3Game.correctEvent ≠ ""))
          ∧ _normalize_guess "  COVID " = pyLower (pyStrip a))
    ∧ ∃ r : GuessResponse,
        submit_guess (some c3Game) "  COVID " (.ok false) = .ok (r, some c3Game)
        ∧ r.correct = true ∧ r.attempts_left = c3Game.attempts_left ∧ r.hint = none :=
  ⟨⟨by decide, "covid", Or.inl (by decide), by decide⟩,
    submit_guess_exact_match_correct c3Game "  COVID " (.ok false) (by decide)
      ⟨"covid", Or.inl (by decide), by decide⟩⟩

def c3BadGame : Game :=
  { id := "gx", title := "t", imageBase64 := "i", correctEvent := ""
  , acceptableAnswers := ["x"], explanation := "e", seed_source := "llm"
  , hints := ["h1", "h2", "h3", "h4"], attempts_left := 4 }

/-- Counterexample to C3 as stated: with an empty correct-event string, a
guess that trims/folds to that string (both "") is NOT accepted — the game
decrements and returns a hint instead. -/
theorem submit_guess_correct_claim_counterexample :
    (∃ a, (a ∈ c3BadGame.acceptableAnswers ∨ a = c3BadGame.correctEvent)
        ∧ _normalize_guess "  " = pyLower (pyStrip a))
    ∧ submit_guess (some c3BadGame) "  " (.ok false)
        = .ok ({ correct := false, attempts_left := 3, hint := some "h1"
               , correctEvent := none, explanation := none }
              , some { id := "gx", title := "t", imageBase64 := "i", correctEvent := ""
                     , acceptableAnswers := ["x"], explanation := "e", seed_source := "llm"
                     , hints := ["h1", "h2", "h3", "h4"], attempts_left := 3 }) :=
  ⟨⟨"", Or.inr rfl, by decide⟩, by rfl⟩

/-- Claim C10: every game installed by a successful build holds exactly 4
hints (seed hints truncated to 4 or padded with the correct-event string), so
on any wrong guess against a 4-hint game with attempts in [1,4] the computed
hint index is in range and the returned hint is never null. -/
theorem current_game_hints_cover_all_wrong_guesses (pid title img : String) (seed : RawSeed)
    (g : Game) (guess : String) (ev : Except String Bool)
    (hh : g.hints.length = 4)
    (h1 : 1 ≤ g.attempts_left) (h4 : g.attempts_left ≤ 4)
    (hwrong : _check_guess guess
        (g.acceptableAnswers ++ (if g.correctEvent ≠ "" then [g.correctEvent] else [])) = false)
    (hev : evalOutcome ev = false) :
    (mk_current_game pid title img seed).hints.length = 4
    ∧ ∃ r : GuessResponse, ∃ g' : Game,
        submit_guess (some g) guess ev = .ok (r, some g') ∧ r.hint.isSome = true := by
  constructor
  · simp [mk_current_game, buildGameHints]
  · refine ⟨_, _, submit_guess_wrong_run g guess ev h1 h4 hwrong hev, ?_⟩
    show (g.hints.get? (4 - g.attempts_left).toNat).isSome = true
    cases hg : g.hints.get? (4 - g.attempts_left).toNat with
    | some v => rfl
    | none =>
      rw [List.get?_eq_none] at hg
      omega

def c10Seed : RawSeed :=
  { source := some "fred", seriesId := some "UNRATE", startDate := some "2020-01-01"
  , endDate := some "2020-12-31", correctEvent := some "COVID-19 pandemic"
  , acceptableAnswers := some (.items ["covid"]), explanation := some "e"
  , hints := some ["h1", "h2"] }

def c10Game : Game :=
  { id := "g10", title := "t", imageBase64 := "img", correctEvent := "COVID-19 pandemic"
  , acceptableAnswers := ["covid"], explanation := "expl", seed_source := "llm"
  , hints := ["h1", "h2", "h3", "h4"], attempts_left := 1 }

/-- Witness for C10 at a concrete 2-hint seed and a game on its 4th wrong
guess. -/
theorem current_game_hints_cover_all_wrong_guesses_witness :
    (c10Game.hints.length = 4 ∧ 1 ≤ c10Game.attempts_left ∧ c10Game.attempts_left ≤ 4
      ∧ _check_guess "nope" (c10Game.acceptableAnswers
          ++ (if c10Game.correctEvent ≠ "" then [c10Game.correctEvent] else [])) = false
      ∧ evalOutcome (.error "down") = false)
    ∧ ((mk_current_game "p" "t" "img" c10Seed).hints.length = 4
       ∧ ∃ r : GuessResponse, ∃ g' : Game,
           submit_guess (some c10Game) "nope" (.error "down") = .ok (r, some g')
           ∧ r.hint.isSome = true) :=
  ⟨⟨by decide, by decide, by decide, by decide, by decide⟩,
    current_game_hints_cover_all_wrong_guesses "p" "t" "img" c10Seed c10Game "nope"
      (.error "down") (by decide) (by decide) (by decide) (by decide) (by decide)⟩

/-- Claim C5: the session diversity check rejects a candidate seed if and
only if its `[start,end]` interval inclusively overlaps some previously
recorded interval or its canonical metric key equals some recorded metric
key. -/
theorem diversity_rejects_iff (seed : RawSeed) (s e : String)
    (intervals : List (String × String)) (metrics : List String)
    (hs : seed.startDate = some s) (he : seed.endDate = some e) :
    diversity_rejects seed intervals metrics = true
      ↔ ((∃ p ∈ intervals, pyStrLe s p.2 = true ∧ pyStrLe p.1 e = true)
          ∨ _metric_key seed ∈ metrics) := by
  unfold diversity_rejects _intervals_overlap
  rw [hs, he]
  simp [List.any_eq_true]

def c5SeedA : RawSeed :=
  { source := some "fred", seriesId := some "UNRATE"
  , startDate := some "2020-01-01", endDate := some "2020-06-30" }

def c5SeedB : RawSeed :=
  { source := some "fred", seriesId := some "GDP"
  , startDate := some "2021-01-01", endDate := some "2021-06-30" }

/-- Witness for C5, including the spec scenario: `[2020-01-01,2020-06-30]`
is rejected after `[2020-03-01,2020-09-01]` was recorded, and
`[2021-01-01,2021-06-30]` is accepted absent a metric collision. -/
theorem diversity_rejects_iff_witness :
    (c5SeedA.startDate = some "2020-01-01" ∧ c5SeedA.endDate = some "2020-06-30")
    ∧ (diversity_rejects c5SeedA [("2020-03-01", "2020-09-01")] [] = true
        ↔ ((∃ p ∈ [("2020-03-01", "2020-09-01")],
              pyStrLe "2020-01-01" p.2 = true ∧ pyStrLe p.1 "2020-06-30" = true)
            ∨ _metric_key c5SeedA ∈ ([] : List String)))
    ∧ diversity_rejects c5SeedA [("2020-03-01", "2020-09-01")] [] = true
    ∧ diversity_rejects c5SeedB [("2020-03-01", "2020-09-01")] [] = false :=
  ⟨⟨rfl, rfl⟩, diversity_rejects_iff c5SeedA "2020-01-01" "2020-06-30" _ _ rfl rfl,
    by decide, by decide⟩

/-- A passed required-key check means every key in the list was present. -/
theorem firstMissing_eq_none {l : List (String × Bool)} (h : firstMissing l = none) :
    ∀ p ∈ l, p.2 = true := by
  induction l with
  | nil => simp
  | cons hd tl ih =>
    obtain ⟨k, b⟩ := hd
    rw [firstMissing] at h
    cases b with
    | false => simp at h
    | true =>
      simp only [if_true] at h
      intro p hp
      rcases List.mem_cons.mp hp with rfl | hp
      · rfl
      · exact ih h p hp

/-- Answer wrapping does not touch the hints field. -/
theorem llmWrap_hints (sd : RawSeed) : (llmWrapAnswers sd).hints = sd.hints := by
  unfold llmWrapAnswers
  cases h : sd.acceptableAnswers with
  | none => rfl
  | some a => cases a <;> rfl

/-- Answer wrapping does not touch the explanation field. -/
theorem llmWrap_explanation (sd : RawSeed) :
    (llmWrapAnswers sd).explanation = sd.explanation := by
  unfold llmWrapAnswers
  cases h : sd.acceptableAnswers with
  | none => rfl
  | some a => cases a <;> rfl

/-- Answer wrapping does not touch the correct-event field. -/
theorem llmWrap_correctEvent (sd : RawSeed) :
    (llmWrapAnswers sd).correctEvent = sd.correctEvent := by
  unfold llmWrapAnswers
  cases h : sd.acceptableAnswers with
  | none => rfl
  | some a => cases a <;> rfl

/-- Synthesized hints are unaffected by answer wrapping. -/
theorem synthHints_llmWrap (sd : RawSeed) :
    synthHints (llmWrapAnswers sd) = synthHints sd := by
  unfold synthHints
  rw [llmWrap_explanation, llmWrap_correctEvent]

/-- Hints field produced by `_ensure_hints`: first 4 kept, else synthesized. -/
theorem ensure_hints_hints (sd : RawSeed) :
    (_ensure_hints sd).hints = some (match sd.hints with
      | some hs => if hs.length ≥ 4 then hs.take 4 else synthHints sd
      | none => synthHints sd) := by
  unfold _ensure_hints
  cases h : sd.hints with
  | none => rfl
  | some hs => by_cases hl : hs.length ≥ 4 <;> simp [hl]

/-- `_ensure_hints` does not touch the answers field. -/
theorem ensure_hints_answers (sd : RawSeed) :
    (_ensure_hints sd).acceptableAnswers = sd.acceptableAnswers := by
  unfold _ensure_hints
  cases h : sd.hints with
  | none => rfl
  | some hs => by_cases hl : hs.length ≥ 4 <;> simp [hl]

/-- Hints field of a finished (validated/repaired) seed. -/
theorem finishSeed_hints_eq (sd : RawSeed) :
    (finishSeed sd).hints = some (match sd.hints with
      | some hs => if hs.length ≥ 4 then hs.take 4 else synthHints sd
      | none => synthHints sd) := by
  show (_ensure_hints (llmWrapAnswers sd)).hints = _
  rw [ensure_hints_hints, llmWrap_hints, synthHints_llmWrap]

/-- Answers field of a finished seed comes from the wrapping step. -/
theorem finishSeed_answers_eq (sd : RawSeed) :
    (finishSeed sd).acceptableAnswers = (llmWrapAnswers sd).acceptableAnswers := by
  show (_ensure_hints (llmWrapAnswers sd)).acceptableAnswers = _
  rw [ensure_hints_answers]

/-- Repair guarantees of `finishSeed` for a seed whose answers key is
present. -/
theorem c4_core (sd : RawSeed) (hans : sd.acceptableAnswers.isSome = true) :
    (∃ hs, (finishSeed sd).hints = some hs ∧ hs.length = 4)
    ∧ (∀ hs0, sd.hints = some hs0 → 4 ≤ hs0.length →
        (finishSeed sd).hints = some (hs0.take 4))
    ∧ (∀ hs0, sd.hints = some hs0 → hs0.length < 4 →
        (finishSeed sd).hints = some (synthHints sd))
    ∧ (sd.hints = none → (finishSeed sd).hints = some (synthHints sd))
    ∧ (∀ s, sd.acceptableAnswers = some (.scalar s) →
        (finishSeed sd).acceptableAnswers = some (.items [s]))
    ∧ (∃ xs, (finishSeed sd).acceptableAnswers = some (.items xs)) := by
  refine ⟨?_, ?_, ?_, ?_, ?_, ?_⟩
  · rw [finishSeed_hints_eq]
    cases h : sd.hints with
    | none => exact ⟨synthHints sd, rfl, rfl⟩
    | some hs0 =>
      by_cases hl : hs0.length ≥ 4
      · exact ⟨hs0.take 4, by simp [hl], by rw [List.length_take]; omega⟩
      · exact ⟨synthHints sd, by simp [hl], rfl⟩
  · intro hs0 h hge
    rw [finishSeed_hints_eq, h]
    simp only [ge_iff_le, hge, if_pos]
  · intro hs0 h hlt
    rw [finishSeed_hints_eq, h]
    simp only [ge_iff_le]
    rw [if_neg (by omega)]
  · intro h
    rw [finishSeed_hints_eq, h]
  · intro s h
    rw [finishSeed_answers_eq]
    unfold llmWrapAnswers
    rw [h]
  · rw [finishSeed_answers_eq]
    unfold llmWrapAnswers
    cases h : sd.acceptableAnswers with
    | none => rw [h] at hans; simp at hans
    | some a => cases a with
      | scalar s => exact ⟨[s], rfl⟩
      | items xs => exact ⟨xs, h⟩

/-- Claim C4 (amended): every candidate accepted by the validator comes out
with exactly 4 hints — the first 4 of the supplied hints when 4 or more were
given, otherwise the synthesized sequence (generic time-period prompt,
explanation or generic fallback, generic short-name prompt, correct-event
string) — and with the accepted-answers field a list, a scalar being wrapped
into a single-element list.  (The validator does not enforce non-emptiness of
a supplied answers list, nor `start <= end`; see the counterexample.) -/
theorem validator_repair_output (seed out : RawSeed)
    (h : validateLLMSeed seed = .ok out) :
    (∃ hs, out.hints = some hs ∧ hs.length = 4)
    ∧ (∀ hs0, seed.hints = some hs0 → 4 ≤ hs0.length → out.hints = some (hs0.take 4))
    ∧ (∀ hs0, seed.hints = some hs0 → hs0.length < 4 → out.hints = some (synthHints seed))
    ∧ (seed.hints = none → out.hints = some (synthHints seed))
    ∧ (∀ s, seed.acceptableAnswers = some (.scalar s) →
        out.acceptableAnswers = some (.items [s]))
    ∧ (∃ xs, out.acceptableAnswers = some (.items xs)) := by
  unfold validateLLMSeed at h
  by_cases hgt : pyLower (pyStrip (pyOrOptStr seed.source "fred")) = "google_trends"
  · rw [if_pos hgt] at h
    split at h
    · simp at h
    · injection h with h
      subst h
      apply c4_core
      have hall := firstMissing_eq_none ‹firstMissing _ = none›
      simpa using hall ("acceptableAnswers", seed.acceptableAnswers.isSome) (by simp)
  · rw [if_neg hgt] at h
    by_cases hnb : pyLower (pyStrip (pyOrOptStr seed.source "fred")) = "nber"
    · rw [if_pos hnb] at h
      split at h
      · simp at h
      · injection h with h
        subst h
        apply c4_core
        have hall := firstMissing_eq_none ‹firstMissing _ = none›
        simpa using hall ("acceptableAnswers", seed.acceptableAnswers.isSome) (by simp)
    · rw [if_neg hnb] at h
      dsimp only [] at h
      split at h
      · simp at h
      · repeat' split at h
        all_goals try (simp at h)
        all_goals subst h
        all_goals apply c4_core
        all_goals {
          have hall := firstMissing_eq_none ‹firstMissing _ = none›
          simpa using hall ("acceptableAnswers", seed.acceptableAnswers.isSome) (by simp)
        }

def c4Bad : RawSeed :=
  { source := some "fred", seriesId := some "GDP", startDate := some "2021-01-01"
  , endDate := some "2020-01-01", correctEvent := some "E"
  , acceptableAnswers := some (.items []), explanation := some "e", hints := none }


def c4BadOut : RawSeed :=
  { source := some "fred", seriesId := some "GDP", startDate := some "2021-01-01"
  , endDate := some "2020-01-01", correctEvent := some "E"
  , acceptableAnswers := some (.items []), explanation := some "e"
  , hints := some ["Think about major economic or global events in this date range.", "e",
      "The answer is often abbreviated or has a common short name.", "E"]
  , seed_source := some "llm" }

/-- Counterexample to C4 as stated: the validator accepts a seed whose
accepted-answers list is empty and whose start-date exceeds its end-date, and
returns it with those fields unchanged. -/
theorem validator_claim_counterexample :
    validateLLMSeed c4Bad = .ok c4BadOut
    ∧ c4BadOut.acceptableAnswers = some (.items [])
    ∧ c4BadOut.startDate = some "2021-01-01"
    ∧ c4BadOut.endDate = some "2020-01-01"
    ∧ pyStrLe "2021-01-01" "2020-01-01" = false :=
  ⟨by rfl, rfl, rfl, rfl, by decide⟩

def c4Seed : RawSeed :=
  { source := some "fred", seriesId := some "UNRATE", startDate := some "2020-01-01"
  , endDate := some "2020-12-31", correctEvent := some "COVID-19 pandemic"
  , acceptableAnswers := some (.scalar "covid"), explanation := some "expl"
  , hints := some ["a", "b"] }

def c4SeedOut : RawSeed :=
  { source := some "fred", seriesId := some "UNRATE", startDate := some "2020-01-01"
  , endDate := some "2020-12-31", correctEvent := some "COVID-19 pandemic"
  , acceptableAnswers := some (.items ["covid"]), explanation := some "expl"
  , hints := some ["Think about major economic or global events in this date range.", "expl",
      "The answer is often abbreviated or has a common short name.", "COVID-19 pandemic"]
  , seed_source := some "llm" }

/-- Witness for C4 at a concrete seed with scalar answers and 2 hints. -/
theorem validator_repair_output_witness :
    validateLLMSeed c4Seed = .ok c4SeedOut
    ∧ ((∃ hs, c4SeedOut.hints = some hs ∧ hs.length = 4)
       ∧ (∀ hs0, c4Seed.hints = some hs0 → 4 ≤ hs0.length →
           c4SeedOut.hints = some (hs0.take 4))
       ∧ (∀ hs0, c4Seed.hints = some hs0 → hs0.length < 4 →
           c4SeedOut.hints = some (synthHints c4Seed))
       ∧ (c4Seed.hints = none → c4SeedOut.hints = some (synthHints c4Seed))
       ∧ (∀ s, c4Seed.acceptableAnswers = some (.scalar s) →
           c4SeedOut.acceptableAnswers = some (.items [s]))
       ∧ (∃ xs, c4SeedOut.acceptableAnswers = some (.items xs))) :=
  ⟨by rfl, validator_repair_output c4Seed c4SeedOut (by rfl)⟩

/-- `_ensure_hints` does not touch the seed-source tag. -/
theorem ensure_hints_seed_source (sd : RawSeed) :
    (_ensure_hints sd).seed_source = sd.seed_source := by
  unfold _ensure_hints
  cases h : sd.hints with
  | none => rfl
  | some hs => by_cases hl : hs.length ≥ 4 <;> simp [hl]

/-- A repaired pool entry is tagged with fallback origin. -/
theorem fallbackRepair_seed_source (sd : RawSeed) :
    (fallbackRepair sd).seed_source = some "fallback" := by
  unfold fallbackRepair
  rw [ensure_hints_seed_source]

/-- Claim C1: when the model invocation/parsing/validation fails with a
rate-limit/quota-classified error, `generate_puzzle_seed` returns a seed drawn
from the static pool tagged with fallback origin without raising; when it
fails with an authentication/authorization-classified error (and not a quota
one), the error propagates instead of falling back. -/
theorem generate_seed_quota_vs_auth
    (rawKey : Option String) (completion : Except String String)
    (parseJson : String → Except String RawSeed)
    (pool : List RawSeed) (choice : Nat) (e : String)
    (hpool : pool ≠ [])
    (hkey : (match rawKey with
             | none => ""
             | some r => pyStripChars ['\''] (pyStripChars ['"'] (pyStrip r))) ≠ "")
    (hfail : llm_attempt completion parseJson = .error e) :
    (isQuotaError (pyLower e) = true →
      ∃ src ∈ pool,
        generate_puzzle_seed true rawKey completion parseJson (some pool) choice
          = .ok (fallbackRepair src)
        ∧ (fallbackRepair src).seed_source = some "fallback")
    ∧ (isQuotaError (pyLower e) = false → isAuthError (pyLower e) = true →
        generate_puzzle_seed true rawKey completion parseJson (some pool) choice
          = .error e) := by
  cases pool with
  | nil => exact absurd rfl hpool
  | cons s0 rest =>
    constructor
    · intro hq
      have hlt : choice % (s0 :: rest).length < (s0 :: rest).length :=
        Nat.mod_lt _ (by simp)
      refine ⟨(s0 :: rest).getD (choice % (s0 :: rest).length) s0, ?_, ?_, ?_⟩
      · rw [List.getD_eq_getElem?_getD, List.getElem?_eq_getElem hlt]
        simp only [Option.getD_some]
        exact List.getElem_mem hlt
      · simp only [generate_puzzle_seed]
        rw [if_neg hkey, hfail]
        simp only [hq, if_true]
        rfl
      · exact fallbackRepair_seed_source _
    · intro hq ha
      simp only [generate_puzzle_seed]
      rw [if_neg hkey, hfail]
      simp only [hq, ha]
      rfl

def c1PoolSeed : RawSeed :=
  { seriesId := some "UNRATE", startDate := some "2020-01-01", endDate := some "2020-12-31"
  , correctEvent := some "COVID-19 pandemic", acceptableAnswers := some (.items ["covid"])
  , explanation := some "Lockdowns.", hints := some ["h1", "h2", "h3", "h4"] }

def c1Pool : List RawSeed := [c1PoolSeed]

def c1Parse : String → Except String RawSeed := fun _ => .error "unreachable"

/-- Witness for C1 at a concrete 429-quota failure (fallback) and a
concrete 401-auth failure (propagation). -/
theorem generate_seed_quota_vs_auth_witness :
    (c1Pool ≠ []
      ∧ (match (some "sk-test" : Option String) with
         | none => ""
         | some r => pyStripChars ['\''] (pyStripChars ['"'] (pyStrip r))) ≠ ""
      ∧ llm_attempt (.error "Error code: 429 - insufficient_quota") c1Parse
          = .error "Error code: 429 - insufficient_quota"
      ∧ isQuotaError (pyLower "Error code: 429 - insufficient_quota") = true
      ∧ isQuotaError (pyLower "Error code: 401 - invalid api key") = false
      ∧ isAuthError (pyLower "Error code: 401 - invalid api key") = true)
    ∧ (∃ src ∈ c1Pool,
        generate_puzzle_seed true (some "sk-test")
            (.error "Error code: 429 - insufficient_quota") c1Parse (some c1Pool) 0
          = .ok (fallbackRepair src)
        ∧ (fallbackRepair src).seed_source = some "fallback")
    ∧ generate_puzzle_seed true (some "sk-test")
        (.error "Error code: 401 - invalid api key") c1Parse (some c1Pool) 0
        = .error "Error code: 401 - invalid api key" :=
  ⟨⟨by decide, by decide, by rfl, by decide, by decide, by decide⟩,
    (generate_seed_quota_vs_auth (some "sk-test")
      (.error "Error code: 429 - insufficient_quota") c1Parse c1Pool 0
      "Error code: 429 - insufficient_quota" (by decide) (by decide) (by rfl)).1 (by decide),
    (generate_seed_quota_vs_auth (some "sk-test")
      (.error "Error code: 401 - invalid api key") c1Parse c1Pool 0
      "Error code: 401 - invalid api key" (by decide) (by decide) (by rfl)).2
      (by decide) (by decide)⟩


/-- The head of the popularity-descending stable sort has maximal
popularity. -/
theorem mergeSort_head_max_pop (l : List FredSeries) (x : FredSeries) (hx : x ∈ l)
    (hd : FredSeries) (tl : List FredSeries)
    (hms : l.mergeSort (fun a b => popOr0 b ≤ popOr0 a) = hd :: tl) :
    popOr0 x ≤ popOr0 hd := by
  have hperm : x ∈ l.mergeSort (fun a b => popOr0 b ≤ popOr0 a) :=
    List.mem_mergeSort.mpr hx
  have hsorted : (l.mergeSort (fun a b => popOr0 b ≤ popOr0 a)).Pairwise
      (fun a b => (popOr0 b ≤ popOr0 a : Bool)) :=
    List.sorted_mergeSort
      (fun a b c h1 h2 => by
        simp only [decide_eq_true_eq] at h1 h2 ⊢
        omega)
      (fun a b => by
        simp only [Bool.or_eq_true, decide_eq_true_eq]
        omega)
      l
  rw [hms] at hperm hsorted
  rcases List.mem_cons.mp hperm with rfl | hmem
  · exact le_refl _
  · have hle := (List.pairwise_cons.mp hsorted).1 x hmem
    simpa using hle

/-- Behaviour of the shared discovery tail: empty coverage filter fails
with the no-matching-series error; on success the assigned id comes from an
overlapping series of maximal popularity. -/
theorem fredPickSeries_spec (seed : RawSeed) (start end_ : String)
    (series_list : List FredSeries) :
    (series_list.filter (fredCovers start end_) = [] →
      fredPickSeries seed start end_ series_list
        = .error ("No FRED series found for discovery covering " ++ start ++ " to " ++ end_))
    ∧ (∀ out, fredPickSeries seed start end_ series_list = .ok out →
        ∃ chosen, chosen ∈ series_list ∧ fredCovers start end_ chosen = true
          ∧ (∀ t ∈ series_list, fredCovers start end_ t = true → popOr0 t ≤ popOr0 chosen)
          ∧ ∃ sid, sid ≠ "" ∧ out = { seed with seriesId := some sid }
              ∧ (chosen.id = some sid ∨ chosen.series_id = some sid)) := by
  constructor
  · intro hempty
    unfold fredPickSeries
    rw [hempty]
  · intro out hout
    simp only [fredPickSeries] at hout
    split at hout
    · simp at hout
    · rename_i s0 rest hvalid
      cases hms : (series_list.filter (fredCovers start end_)).mergeSort
          (fun a b => popOr0 b ≤ popOr0 a) with
      | nil =>
        have hmem0 : s0 ∈ (series_list.filter (fredCovers start end_)).mergeSort
            (fun a b => popOr0 b ≤ popOr0 a) :=
          List.mem_mergeSort.mpr (by rw [hvalid]; exact List.mem_cons_self _ _)
        rw [hms] at hmem0
        simp at hmem0
      | cons hd tl =>
        rw [hms] at hout
        have hdmem : hd ∈ series_list.filter (fredCovers start end_) := by
          have hmem1 : hd ∈ (series_list.filter (fredCovers start end_)).mergeSort
              (fun a b => popOr0 b ≤ popOr0 a) := by
            rw [hms]
            exact List.mem_cons_self _ _
          exact List.mem_mergeSort.mp hmem1
        have hdmem2 := List.mem_filter.mp hdmem
        have hmax : ∀ t ∈ series_list, fredCovers start end_ t = true → popOr0 t ≤ popOr0 hd := by
          intro t ht hc
          exact mergeSort_head_max_pop _ t (List.mem_filter.mpr ⟨ht, hc⟩) hd tl hms
        refine ⟨hd, hdmem2.1, hdmem2.2, hmax, ?_⟩
        simp only [List.headI] at hout
        split at hout
        · rename_i s1 hid
          split at hout
          · simp at hout
          · rename_i hne1
            injection hout with hout
            refine ⟨s1, hne1, hout.symm, ?_⟩
            split at hid
            · rename_i s2 hid2
              split at hid
              · injection hid with hid
                subst hid
                exact Or.inl hid2
              · exact Or.inr hid
            · exact Or.inr hid
        · simp at hout

/-- A present non-empty optional string survives the `or ""` default. -/
theorem pyOrOptStr_some_of_ne (s : String) (h : s ≠ "") : pyOrOptStr (some s) "" = s := by
  simp [pyOrOptStr, pyOrStr, h]

/-- With discovery "search" and non-empty search text, resolution queries
the search capability and delegates to the shared pick. -/
theorem resolve_search_reduction (seed : RawSeed)
    (search_series : String → List FredSeries)
    (get_release_series : Int → List FredSeries)
    (start end_ : String)
    (hs : seed.startDate = some start) (he : seed.endDate = some end_)
    (hstart : start ≠ "") (hend : end_ ≠ "")
    (hd : pyLower (pyStrip (pyOrOptStr seed.fredDiscovery "")) = "search")
    (ht : pyStrip (pyOrOptStr seed.searchText "") ≠ "") :
    _resolve_fred_discovery seed search_series get_release_series
      = fredPickSeries seed start end_
          (search_series (pyStrip (pyOrOptStr seed.searchText ""))) := by
  simp only [_resolve_fred_discovery]
  rw [hd, hs, he, pyOrOptStr_some_of_ne start hstart, pyOrOptStr_some_of_ne end_ hend]
  rw [if_neg (by decide : ¬ ("search" = ""))]
  rw [if_neg (by simp [hstart, hend])]
  rw [if_pos rfl]
  rw [if_neg ht]

/-- With discovery "release" and a positive release id, resolution queries
the release-listing capability and delegates to the shared pick. -/
theorem resolve_release_reduction (seed : RawSeed)
    (search_series : String → List FredSeries)
    (get_release_series : Int → List FredSeries)
    (start end_ : String)
    (hs : seed.startDate = some start) (he : seed.endDate = some end_)
    (hstart : start ≠ "") (hend : end_ ≠ "")
    (hd : pyLower (pyStrip (pyOrOptStr seed.fredDiscovery "")) = "release")
    (hr : 0 < ridOr0 seed.releaseId seed.release_id) :
    _resolve_fred_discovery seed search_series get_release_series
      = fredPickSeries seed start end_
          (get_release_series (ridOr0 seed.releaseId seed.release_id)) := by
  simp only [_resolve_fred_discovery]
  rw [hd, hs, he, pyOrOptStr_some_of_ne start hstart, pyOrOptStr_some_of_ne end_ hend]
  rw [if_neg (by decide : ¬ ("release" = ""))]
  rw [if_neg (by simp [hstart, hend])]
  rw [if_neg (by decide : ¬ ("release" = "search"))]
  rw [if_pos rfl]
  rw [if_neg (by omega : ¬ (ridOr0 seed.releaseId seed.release_id ≤ 0))]

/-- Discovery "search" with empty search text fails with the
missing-parameter error. -/
theorem resolve_search_missing_text (seed : RawSeed)
    (search_series : String → List FredSeries)
    (get_release_series : Int → List FredSeries)
    (start end_ : String)
    (hs : seed.startDate = some start) (he : seed.endDate = some end_)
    (hstart : start ≠ "") (hend : end_ ≠ "")
    (hd : pyLower (pyStrip (pyOrOptStr seed.fredDiscovery "")) = "search")
    (ht : pyStrip (pyOrOptStr seed.searchText "") = "") :
    _resolve_fred_discovery seed search_series get_release_series
      = .error "FRED discovery=search missing searchText" := by
  simp only [_resolve_fred_discovery]
  rw [hd, hs, he, pyOrOptStr_some_of_ne start hstart, pyOrOptStr_some_of_ne end_ hend]
  rw [if_neg (by decide : ¬ ("search" = ""))]
  rw [if_neg (by simp [hstart, hend])]
  rw [if_pos rfl]
  rw [if_pos ht]

/-- Discovery "release" with a missing/non-positive release id fails with
the missing-parameter error. -/
theorem resolve_release_missing_id (seed : RawSeed)
    (search_series : String → List FredSeries)
    (get_release_series : Int → List FredSeries)
    (start end_ : String)
    (hs : seed.startDate = some start) (he : seed.endDate = some end_)
    (hstart : start ≠ "") (hend : end_ ≠ "")
    (hd : pyLower (pyStrip (pyOrOptStr seed.fredDiscovery "")) = "release")
    (hr : ridOr0 seed.releaseId seed.release_id ≤ 0) :
    _resolve_fred_discovery seed search_series get_release_series
      = .error "FRED discovery=release missing releaseId" := by
  simp only [_resolve_fred_discovery]
  rw [hd, hs, he, pyOrOptStr_some_of_ne start hstart, pyOrOptStr_some_of_ne end_ hend]
  rw [if_neg (by decide : ¬ ("release" = ""))]
  rw [if_neg (by simp [hstart, hend])]
  rw [if_neg (by decide : ¬ ("release" = "search"))]
  rw [if_pos rfl]
  rw [if_pos hr]

/-- Claim C8: for every FRED seed using indirect discovery, resolution
queries the corresponding search/release-listing capability, keeps only
series whose declared coverage interval overlaps the requested `[start,end]`
range, and assigns as the seed series id the id of a kept series of maximal
popularity (the head of the popularity-descending stable sort); it fails with
a no-matching-series error when the filtered set is empty, and with a
missing-parameter error when the discovery descriptor is incomplete (empty
search text, or missing/non-positive release id). -/
theorem resolve_fred_discovery_spec (seed : RawSeed)
    (search_series : String → List FredSeries)
    (get_release_series : Int → List FredSeries)
    (start end_ : String)
    (hs : seed.startDate = some start) (he : seed.endDate = some end_)
    (hstart : start ≠ "") (hend : end_ ≠ "") :
    (pyLower (pyStrip (pyOrOptStr seed.fredDiscovery "")) = "search" →
      (pyStrip (pyOrOptStr seed.searchText "") = "" →
        _resolve_fred_discovery seed search_series get_release_series
          = .error "FRED discovery=search missing searchText")
      ∧ (pyStrip (pyOrOptStr seed.searchText "") ≠ "" →
          ((search_series (pyStrip (pyOrOptStr seed.searchText ""))).filter
              (fredCovers start end_) = [] →
            _resolve_fred_discovery seed search_series get_release_series
              = .error ("No FRED series found for discovery covering "
                  ++ start ++ " to " ++ end_))
          ∧ (∀ out, _resolve_fred_discovery seed search_series get_release_series
                = .ok out →
              ∃ chosen, chosen ∈ search_series (pyStrip (pyOrOptStr seed.searchText ""))
                ∧ fredCovers start end_ chosen = true
                ∧ (∀ t ∈ search_series (pyStrip (pyOrOptStr seed.searchText "")),
                    fredCovers start end_ t = true → popOr0 t ≤ popOr0 chosen)
                ∧ ∃ sid, sid ≠ "" ∧ out = { seed with seriesId := some sid }
                    ∧ (chosen.id = some sid ∨ chosen.series_id = some sid))))
    ∧ (pyLower (pyStrip (pyOrOptStr seed.fredDiscovery "")) = "release" →
        (ridOr0 seed.releaseId seed.release_id ≤ 0 →
          _resolve_fred_discovery seed search_series get_release_series
            = .error "FRED discovery=release missing releaseId")
        ∧ (0 < ridOr0 seed.releaseId seed.release_id →
            ((get_release_series (ridOr0 seed.releaseId seed.release_id)).filter
                (fredCovers start end_) = [] →
              _resolve_fred_discovery seed search_series get_release_series
                = .error ("No FRED series found for discovery covering "
                    ++ start ++ " to " ++ end_))
            ∧ (∀ out, _resolve_fred_discovery seed search_series get_release_series
                  = .ok out →
                ∃ chosen, chosen ∈ get_release_series (ridOr0 seed.releaseId seed.release_id)
                  ∧ fredCovers start end_ chosen = true
                  ∧ (∀ t ∈ get_release_series (ridOr0 seed.releaseId seed.release_id),
                      fredCovers start end_ t = true → popOr0 t ≤ popOr0 chosen)
                  ∧ ∃ sid, sid ≠ "" ∧ out = { seed with seriesId := some sid }
                      ∧ (chosen.id = some sid ∨ chosen.series_id = some sid)))) := by
  constructor
  · intro hd
    constructor
    · intro ht
      exact resolve_search_missing_text seed search_series get_release_series
        start end_ hs he hstart hend hd ht
    · intro ht
      have hred := resolve_search_reduction seed search_series get_release_series
        start end_ hs he hstart hend hd ht
      constructor
      · intro hempty
        rw [hred]
        exact (fredPickSeries_spec seed start end_ _).1 hempty
      · intro out hout
        rw [hred] at hout
        exact (fredPickSeries_spec seed start end_ _).2 out hout
  · intro hd
    constructor
    · intro hr
      exact resolve_release_missing_id seed search_series get_release_series
        start end_ hs he hstart hend hd hr
    · intro hr
      have hred := resolve_release_reduction seed search_series get_release_series
        start end_ hs he hstart hend hd hr
      constructor
      · intro hempty
        rw [hred]
        exact (fredPickSeries_spec seed start end_ _).1 hempty
      · intro out hout
        rw [hred] at hout
        exact (fredPickSeries_spec seed start end_ _).2 out hout

def c8Seed : RawSeed :=
  { source := some "fred", fredDiscovery := some "search", searchText := some "unemployment"
  , startDate := some "2020-01-01", endDate := some "2020-12-31"
  , correctEvent := some "E", acceptableAnswers := some (.items ["e"])
  , explanation := some "x" }

def c8Search : String → List FredSeries := fun _ =>
  [ { id := some "UNRATENSA", observation_start := some "1948-01-01"
    , observation_end := some "2021-01-01", popularity := some 50 }
  , { id := some "UNRATE", observation_start := some "1948-01-01"
    , observation_end := some "2021-01-01", popularity := some 90 }
  , { id := some "OLD", observation_start := some "1900-01-01"
    , observation_end := some "1950-01-01", popularity := some 99 } ]

def c8Release : Int → List FredSeries := fun _ => []

/-- Witness for C8 at a concrete search-discovery seed and series list. -/
theorem resolve_fred_discovery_spec_witness :
    (c8Seed.startDate = some "2020-01-01" ∧ c8Seed.endDate = some "2020-12-31"
      ∧ ("2020-01-01" : String) ≠ "" ∧ ("2020-12-31" : String) ≠ ""
      ∧ pyLower (pyStrip (pyOrOptStr c8Seed.fredDiscovery "")) = "search"
      ∧ pyStrip (pyOrOptStr c8Seed.searchText "") ≠ "")
    ∧ ((pyLower (pyStrip (pyOrOptStr c8Seed.fredDiscovery "")) = "search" →
        (pyStrip (pyOrOptStr c8Seed.searchText "") = "" →
          _resolve_fred_discovery c8Seed c8Search c8Release
            = .error "FRED discovery=search missing searchText")
        ∧ (pyStrip (pyOrOptStr c8Seed.searchText "") ≠ "" →
            ((c8Search (pyStrip (pyOrOptStr c8Seed.searchText ""))).filter
                (fredCovers "2020-01-01" "2020-12-31") = [] →
              _resolve_fred_discovery c8Seed c8Search c8Release
                = .error ("No FRED series found for discovery covering "
                    ++ "2020-01-01" ++ " to " ++ "2020-12-31"))
            ∧ (∀ out, _resolve_fred_discovery c8Seed c8Search c8Release = .ok out →
                ∃ chosen, chosen ∈ c8Search (pyStrip (pyOrOptStr c8Seed.searchText ""))
                  ∧ fredCovers "2020-01-01" "2020-12-31" chosen = true
                  ∧ (∀ t ∈ c8Search (pyStrip (pyOrOptStr c8Seed.searchText "")),
                      fredCovers "2020-01-01" "2020-12-31" t = true →
                        popOr0 t ≤ popOr0 chosen)
                  ∧ ∃ sid, sid ≠ "" ∧ out = { c8Seed with seriesId := some sid }
                      ∧ (chosen.id = some sid ∨ chosen.series_id = some sid))))
      ∧ (pyLower (pyStrip (pyOrOptStr c8Seed.fredDiscovery "")) = "release" →
          (ridOr0 c8Seed.releaseId c8Seed.release_id ≤ 0 →
            _resolve_fred_discovery c8Seed c8Search c8Release
              = .error "FRED discovery=release missing releaseId")
          ∧ (0 < ridOr0 c8Seed.releaseId c8Seed.release_id →
              ((c8Release (ridOr0 c8Seed.releaseId c8Seed.release_id)).filter
                  (fredCovers "2020-01-01" "2020-12-31") = [] →
                _resolve_fred_discovery c8Seed c8Search c8Release
                  = .error ("No FRED series found for discovery covering "
                      ++ "2020-01-01" ++ " to " ++ "2020-12-31"))
              ∧ (∀ out, _resolve_fred_discovery c8Seed c8Search c8Release = .ok out →
                  ∃ chosen, chosen ∈ c8Release (ridOr0 c8Seed.releaseId c8Seed.release_id)
                    ∧ fredCovers "2020-01-01" "2020-12-31" chosen = true
                    ∧ (∀ t ∈ c8Release (ridOr0 c8Seed.releaseId c8Seed.release_id),
                        fredCovers "2020-01-01" "2020-12-31" t = true →
                          popOr0 t ≤ popOr0 chosen)
                    ∧ ∃ sid, sid ≠ "" ∧ out = { c8Seed with seriesId := some sid }
                        ∧ (chosen.id = some sid ∨ chosen.series_id = some sid))))) :=
  ⟨⟨rfl, rfl, by decide, by decide, by decide, by decide⟩,
    resolve_fred_discovery_spec c8Seed c8Search c8Release "2020-01-01" "2020-12-31"
      rfl rfl (by decide) (by decide)⟩
